import Mathlib

/-!
Verification of the station-traffic core of the bikewatching map
(`src/map.js`): trip windowing, per-station traffic aggregation, the
radius and flow-ratio visual-encoding scales, coordinate projection with
its off-canvas fallback, and the filter-driven re-render step.

JS records are embedded as Lean structures; fields that may be `null` or
`undefined` in the source are `Option`-valued.  Trip counts are `Nat`,
minute arithmetic is over `Int` (the slider value uses the sentinel `-1`),
the flow ratio is over `ℚ`, and the square-root radius scale over `ℝ`.
-/

/-- Wall-clock timestamp as consumed by `minutesSinceMidnight`
(src/map.js line 53): only the `getHours()` and `getMinutes()` components
of a JS `Date` are ever read. -/
structure Timestamp where
  hours : Nat
  minutes : Nat
deriving Repr, DecidableEq

/-- One trip row of the traffic CSV: start/end station identities and the
parsed start/end timestamps (src/map.js lines 154-158). -/
structure Trip where
  start_station_id : String
  end_station_id : String
  started_at : Timestamp
  ended_at : Timestamp
deriving Repr, DecidableEq

/-- A station record.  `short_name`, `station_id`, the cached `_id`, and the
three derived counters may all be absent (`undefined`) before they are
written; `lat`/`lon` may be missing.  `extra` stands for every remaining
source field, so frame conditions can say those are untouched. -/
structure Station where
  short_name : Option String
  station_id : Option String
  _id : Option String
  lat : Option Int
  lon : Option Int
  name : String
  arrivals : Option Nat
  departures : Option Nat
  totalTraffic : Option Nat
  extra : String
deriving Repr, DecidableEq

/-- Screen point produced by projection (src/map.js lines 43-45). -/
structure Point where
  cx : Int
  cy : Int
deriving Repr, DecidableEq

/-- Coordinate reader (src/map.js lines 29-31). -/
def getLat (station : Station) : Option Int :=
  station.lat

/-- Coordinate reader (src/map.js lines 32-34). -/
def getLon (station : Station) : Option Int :=
  station.lon

/-- Station identity with fallback order `short_name ?? station_id ?? S<idx>`
(src/map.js lines 35-37). -/
def getStationId (station : Station) (idx : Nat) : String :=
  station.short_name.getD (station.station_id.getD ("S" ++ toString idx))

/-- Projection of a station to screen coordinates (src/map.js lines 40-46).
`project` stands for the external `map.project` capability (lon, lat order);
a missing latitude or longitude yields the off-canvas sentinel. -/
def getCoords (project : Int → Int → Point) (station : Station) : Point :=
  match getLat station, getLon station with
  | some lat, some lon => project lon lat
  | some _, none => { cx := -9999, cy := -9999 }
  | none, _ => { cx := -9999, cy := -9999 }

/-- Minutes since midnight: `getHours() * 60 + getMinutes()`
(src/map.js lines 53-55). -/
def minutesSinceMidnight (date : Timestamp) : Nat :=
  date.hours * 60 + date.minutes

/-- Lookup in a `d3.rollup(trips, v => v.length, key)` frequency table with
`.get(id) ?? 0`: the number of trips whose key equals `id`
(src/map.js lines 59-69 with lines 73-74). -/
def rollupCount (key : Trip → String) (tripsArray : List Trip) (id : String) : Nat :=
  (tripsArray.filter fun t => key t == id).length

/-- Body of the per-station pass of `computeStationTraffic`
(src/map.js lines 71-81): resolve the identity (cached `_id` first),
look both frequency tables up, and write `_id` and the three counters. -/
def aggregateOne (tripsArray : List Trip) (idx : Nat) (s : Station) : Station :=
  let id := s._id.getD (getStationId s idx)
  let arr := rollupCount Trip.end_station_id tripsArray id
  let dep := rollupCount Trip.start_station_id tripsArray id
  { s with _id := some id, arrivals := some arr, departures := some dep,
           totalTraffic := some (arr + dep) }

/-- Per-station traffic aggregation (src/map.js lines 58-82). -/
def computeStationTraffic (stationsArray : List Station) (tripsArray : List Trip) :
    List Station :=
  stationsArray.mapIdx fun idx s => aggregateOne tripsArray idx s

/-- Two-hour window filter (src/map.js lines 85-95): sentinel `-1` returns
the input unchanged, otherwise a trip is kept when the start or the end
minute is within 60 of `minute` by plain absolute difference. -/
def filterTripsByTime (tripsArray : List Trip) (minute : Int) : List Trip :=
  if minute = -1 then tripsArray
  else
    tripsArray.filter fun trip =>
      decide (((minutesSinceMidnight trip.started_at : Int) - minute).natAbs ≤ 60) ||
      decide (((minutesSinceMidnight trip.ended_at : Int) - minute).natAbs ≤ 60)

/-- The quantize scale `d3.scaleQuantize().domain([0, 1]).range([0, 0.5, 1])`
(src/map.js line 23).  With three range values the thresholds sit at 1/3 and
2/3, and a value equal to a threshold falls into the upper bucket
(d3 bisects right). -/
def stationFlow (x : ℚ) : ℚ :=
  if x < 1 / 3 then 0 else if x < 2 / 3 then 1 / 2 else 1

/-- The `--departure-ratio` style value of a marker (src/map.js
lines 218-220): `stationFlow(d.totalTraffic ? d.departures / d.totalTraffic
: 0.5)`, where a falsy (zero or undefined) total selects the midpoint. -/
def departureRatioStyle (d : Station) : ℚ :=
  stationFlow
    (if d.totalTraffic.getD 0 ≠ 0 then
      (d.departures.getD 0 : ℚ) / (d.totalTraffic.getD 0 : ℚ)
    else 1 / 2)

/-- The square-root scale `d3.scaleSqrt().domain([0, domainMax])` with output
range `[rangeMin, rangeMax]` (src/map.js lines 26 and 163): the domain
minimum is 0 in both places it is set, so the value is
`rangeMin + (sqrt x / sqrt domainMax) * (rangeMax - rangeMin)`. -/
noncomputable def radiusScale (domainMax rangeMin rangeMax x : ℝ) : ℝ :=
  rangeMin + Real.sqrt x / Real.sqrt domainMax * (rangeMax - rangeMin)

/-- The output range picked on each re-render (src/map.js lines 207-209):
`[0, 25]` at the sentinel, `[3, 50]` under an active filter. -/
def radiusRange (currentTimeFilter : Int) : ℝ × ℝ :=
  if currentTimeFilter = -1 then (0, 25) else (3, 50)

/-- The radius-scale domain maximum (src/map.js line 162):
`d3.max(stations, d => d.totalTraffic) || 1`.  `d3.max` skips undefined
totals and is itself undefined on an empty input; `|| 1` replaces a falsy
maximum (undefined or 0) by 1. -/
def maxTraffic (stations : List Station) : Nat :=
  match (stations.filterMap Station.totalTraffic).max? with
  | none => 1
  | some 0 => 1
  | some m => m

/-- The mutable configuration of `radiusScale` (src/map.js lines 26, 163,
207-209): a domain `[0, domainMax]` and an output range
`[rangeLo, rangeHi]`. -/
structure ScaleState where
  domainMax : Nat
  rangeLo : Nat
  rangeHi : Nat
deriving Repr, DecidableEq

/-- The state touched by a re-render: the station collection, the loaded
trip collection, and the radius-scale configuration. -/
structure AppState where
  stations : List Station
  trips : List Trip
  scale : ScaleState
deriving Repr, DecidableEq

/-- Initial load (src/map.js lines 160-163): aggregate the unfiltered trips,
then set the radius-scale domain from the unfiltered totals and the range to
`[0, 25]`. -/
def initialLoad (stations : List Station) (trips : List Trip) : AppState :=
  let aggregated := computeStationTraffic stations trips
  { stations := aggregated, trips := trips,
    scale := { domainMax := maxTraffic aggregated, rangeLo := 0, rangeHi := 25 } }

/-- One filter-driven re-render (src/map.js lines 203-230): window the
trips, re-aggregate the stations, and switch only the radius-scale output
range depending on whether the filter is the sentinel. -/
def updateScatterPlot (st : AppState) (currentTimeFilter : Int) : AppState :=
  let filteredTrips := filterTripsByTime st.trips currentTimeFilter
  let filteredStations := computeStationTraffic st.stations filteredTrips
  let scale :=
    if currentTimeFilter = -1 then
      { st.scale with rangeLo := 0, rangeHi := 25 }
    else
      { st.scale with rangeLo := 3, rangeHi := 50 }
  { st with stations := filteredStations, scale := scale }

/-- Identity actually used for a station inside an aggregation pass
(src/map.js line 72): the cached `_id` when present, the derived id
otherwise. -/
def effectiveId (s : Station) (idx : Nat) : String :=
  s._id.getD (getStationId s idx)

/-! Helper lemmas shared by the claim theorems. -/

theorem length_computeStationTraffic (S : List Station) (T : List Trip) :
    (computeStationTraffic S T).length = S.length := by
  simp [computeStationTraffic]

theorem get_computeStationTraffic (S : List Station) (T : List Trip) (i : Nat)
    (h : i < S.length) (h' : i < (computeStationTraffic S T).length) :
    (computeStationTraffic S T).get ⟨i, h'⟩ = aggregateOne T i (S.get ⟨i, h⟩) := by
  simp [computeStationTraffic, List.getElem_mapIdx]

theorem rollupCount_eq_zero {key : Trip → String} {T : List Trip} {id : String}
    (h : ∀ t ∈ T, key t ≠ id) : rollupCount key T id = 0 := by
  unfold rollupCount
  rw [List.length_eq_zero, List.filter_eq_nil_iff]
  intro t ht
  simpa using h t ht

/-- C2: `filterTripsByTime` at the sentinel `-1` is the identity, and for any
other minute it keeps exactly the trips whose start minute or end minute is
within 60 (inclusive) of the reference by plain, non-wraparound absolute
difference. -/
theorem filterTripsByTime_sentinel_and_window (T : List Trip) (m : Int) :
    filterTripsByTime T (-1) = T ∧
    (m ≠ -1 → ∀ t : Trip,
      t ∈ filterTripsByTime T m ↔
        t ∈ T ∧ (((minutesSinceMidnight t.started_at : Int) - m).natAbs ≤ 60 ∨
                 ((minutesSinceMidnight t.ended_at : Int) - m).natAbs ≤ 60)) := by
  constructor
  · simp [filterTripsByTime]
  · intro hm t
    simp [filterTripsByTime, hm, List.mem_filter]

/-- Witness for C2 at minute 120: a trip starting 01:00 (difference exactly
60) is kept, a trip living at 00:59 (difference 61) is dropped, and a trip at
23:30 is dropped for the reference 00:30 (no midnight wraparound). -/
theorem filterTripsByTime_sentinel_and_window_witness :
    (⟨"A", "B", ⟨1, 0⟩, ⟨1, 0⟩⟩ : Trip) ∈
      filterTripsByTime [⟨"A", "B", ⟨1, 0⟩, ⟨1, 0⟩⟩, ⟨"A", "B", ⟨0, 59⟩, ⟨0, 59⟩⟩] 120 ∧
    (⟨"A", "B", ⟨0, 59⟩, ⟨0, 59⟩⟩ : Trip) ∉
      filterTripsByTime [⟨"A", "B", ⟨1, 0⟩, ⟨1, 0⟩⟩, ⟨"A", "B", ⟨0, 59⟩, ⟨0, 59⟩⟩] 120 ∧
    (⟨"A", "B", ⟨23, 30⟩, ⟨23, 40⟩⟩ : Trip) ∉
      filterTripsByTime [⟨"A", "B", ⟨23, 30⟩, ⟨23, 40⟩⟩] 30 := by
  have h1 := filterTripsByTime_sentinel_and_window
    [⟨"A", "B", ⟨1, 0⟩, ⟨1, 0⟩⟩, ⟨"A", "B", ⟨0, 59⟩, ⟨0, 59⟩⟩] 120
  have h2 := filterTripsByTime_sentinel_and_window [⟨"A", "B", ⟨23, 30⟩, ⟨23, 40⟩⟩] 30
  refine ⟨(h1.2 (by decide) _).mpr (by decide), ?_, ?_⟩
  · intro hmem
    exact absurd ((h1.2 (by decide) _).mp hmem) (by decide)
  · intro hmem
    exact absurd ((h2.2 (by decide) _).mp hmem) (by decide)

/-- C9: `getCoords` delegates to the projection capability when both
coordinates are present, and returns the off-canvas sentinel point
`(-9999, -9999)` when the latitude or the longitude is missing. -/
theorem getCoords_spec (project : Int → Int → Point) (s : Station) :
    (∀ la lo : Int, s.lat = some la → s.lon = some lo →
      getCoords project s = project lo la) ∧
    (s.lat = none ∨ s.lon = none →
      getCoords project s = { cx := -9999, cy := -9999 }) := by
  constructor
  · intro la lo hla hlo
    simp [getCoords, getLat, getLon, hla, hlo]
  · rintro (h | h) <;> cases hla : s.lat <;> cases hlo : s.lon <;>
      simp_all [getCoords, getLat, getLon]

/-- Witness for C9: a station with both coordinates is projected, one with a
missing latitude lands at the sentinel point. -/
theorem getCoords_spec_witness :
    getCoords (fun lo la => ⟨lo, la⟩)
      ⟨some "A", none, none, some 42, some (-71), "n", none, none, none, ""⟩ =
      ⟨-71, 42⟩ ∧
    getCoords (fun lo la => ⟨lo, la⟩)
      ⟨some "A", none, none, none, some (-71), "n", none, none, none, ""⟩ =
      ⟨-9999, -9999⟩ := by
  have h1 := getCoords_spec (fun lo la => ⟨lo, la⟩)
    ⟨some "A", none, none, some 42, some (-71), "n", none, none, none, ""⟩
  have h2 := getCoords_spec (fun lo la => ⟨lo, la⟩)
    ⟨some "A", none, none, none, some (-71), "n", none, none, none, ""⟩
  exact ⟨h1.1 42 (-71) rfl rfl, h2.2 (Or.inl rfl)⟩

/-- C4: the flow encoding of a marker is always one of the three buckets
0, 1/2, 1; ratio 0 lands in bucket 0 and ratio 1 in bucket 1; the midpoint
1/2 and the internal threshold 1/3 land in bucket 1/2; a zero (or undefined)
total is substituted by the midpoint and encoded as 1/2; and a station with
positive total is encoded by quantizing departures / totalTraffic. -/
theorem departureRatioStyle_buckets :
    (∀ d : Station,
      departureRatioStyle d = 0 ∨ departureRatioStyle d = 1 / 2 ∨
        departureRatioStyle d = 1) ∧
    stationFlow 0 = 0 ∧ stationFlow 1 = 1 ∧
    stationFlow (1 / 2) = 1 / 2 ∧ stationFlow (1 / 3) = 1 / 2 ∧
    (∀ d : Station, d.totalTraffic.getD 0 = 0 → departureRatioStyle d = 1 / 2) ∧
    (∀ d : Station, ∀ t : Nat, d.totalTraffic = some t → t ≠ 0 →
      departureRatioStyle d = stationFlow ((d.departures.getD 0 : ℚ) / (t : ℚ))) := by
  refine ⟨?_, by norm_num [stationFlow], by norm_num [stationFlow],
    by norm_num [stationFlow], by norm_num [stationFlow], ?_, ?_⟩
  · intro d
    unfold departureRatioStyle stationFlow
    split_ifs <;> simp
  · intro d h
    rw [departureRatioStyle, h]
    norm_num [stationFlow]
  · intro d t ht htz
    simp [departureRatioStyle, ht, htz]

/-- Witness for C4: a station with total 0 is encoded as 1/2, and one with
3 departures out of 4 trips is encoded by quantizing 3/4 (bucket 1). -/
theorem departureRatioStyle_buckets_witness :
    departureRatioStyle
      ⟨some "A", none, none, none, none, "n", some 0, some 0, some 0, ""⟩ = 1 / 2 ∧
    departureRatioStyle
      ⟨some "A", none, none, none, none, "n", some 1, some 3, some 4, ""⟩ =
      stationFlow ((3 : ℚ) / 4) := by
  have h := departureRatioStyle_buckets
  have h7 := h.2.2.2.2.2.2
    (⟨some "A", none, none, none, none, "n", some 1, some 3, some 4, ""⟩ : Station)
    4 rfl (by decide)
  refine ⟨h.2.2.2.2.2.1 _ rfl, ?_⟩
  simpa using h7

/-- C10: when the station list is empty, or every station's total traffic is
0, the guarded maximum is the fallback 1, so the radius-scale domain is
`[0, 1]` and never the degenerate `[0, 0]`. -/
theorem maxTraffic_fallback (S : List Station)
    (h : S = [] ∨ ∀ s ∈ S, s.totalTraffic = some 0) : maxTraffic S = 1 := by
  rcases h with h | h
  · subst h; rfl
  · have hzero : ∀ x ∈ S.filterMap Station.totalTraffic, x = 0 := by
      intro x hx
      rcases List.mem_filterMap.mp hx with ⟨s, hs, hval⟩
      rw [h s hs] at hval
      exact (Option.some_inj.mp hval).symm
    unfold maxTraffic
    cases hmax : (S.filterMap Station.totalTraffic).max? with
    | none => rfl
    | some m =>
      have hm : m ∈ S.filterMap Station.totalTraffic :=
        List.max?_mem (fun a b => max_choice a b) hmax
      rw [hzero m hm]

/-- Witness for C10: the empty station list and an all-zero station list both
give domain maximum 1. -/
theorem maxTraffic_fallback_witness :
    maxTraffic [] = 1 ∧
    maxTraffic
      [⟨some "A", none, none, none, none, "n", some 0, some 0, some 0, ""⟩] = 1 := by
  refine ⟨maxTraffic_fallback [] (Or.inl rfl), maxTraffic_fallback _ (Or.inr ?_)⟩
  intro s hs
  rw [List.mem_singleton.mp hs]

theorem rollupCount_perm (key : Trip → String) {T T' : List Trip}
    (hp : T.Perm T') (id : String) : rollupCount key T id = rollupCount key T' id := by
  unfold rollupCount
  rw [← List.countP_eq_length_filter, ← List.countP_eq_length_filter]
  exact hp.countP_eq _

/-- C5: aggregation is deterministic in the trip order: any permutation of
the trip list yields the very same station list. -/
theorem computeStationTraffic_perm (S : List Station) {T T' : List Trip}
    (hp : T.Perm T') : computeStationTraffic S T = computeStationTraffic S T' := by
  unfold computeStationTraffic
  have hfun : (fun idx s => aggregateOne T idx s) =
      (fun idx s => aggregateOne T' idx s) := by
    funext idx s
    have hcount : ∀ key id, rollupCount key T id = rollupCount key T' id :=
      fun key id => rollupCount_perm key hp id
    simp only [aggregateOne, hcount]
  rw [hfun]

/-- Witness for C5: swapping two concrete trips leaves the aggregated
station list unchanged. -/
theorem computeStationTraffic_perm_witness :
    computeStationTraffic
      [⟨some "A", none, none, none, none, "n", none, none, none, ""⟩]
      [⟨"A", "B", ⟨8, 10⟩, ⟨8, 25⟩⟩, ⟨"B", "A", ⟨9, 0⟩, ⟨9, 30⟩⟩] =
    computeStationTraffic
      [⟨some "A", none, none, none, none, "n", none, none, none, ""⟩]
      [⟨"B", "A", ⟨9, 0⟩, ⟨9, 30⟩⟩, ⟨"A", "B", ⟨8, 10⟩, ⟨8, 25⟩⟩] :=
  computeStationTraffic_perm _ (List.Perm.swap _ _ _)

theorem foldl_updateScatterPlot_domainMax (fs : List Int) (st : AppState) :
    (fs.foldl updateScatterPlot st).scale.domainMax = st.scale.domainMax := by
  induction fs generalizing st with
  | nil => rfl
  | cons f fs ih =>
    rw [List.foldl_cons, ih]
    unfold updateScatterPlot
    split <;> rfl

/-- C6: the radius-scale domain is fixed at initial load from the unfiltered
totals; a re-render changes only the output range, so any sequence of
filter events leaves the domain untouched. -/
theorem updateScatterPlot_domain_stable (st : AppState) (f : Int) (fs : List Int)
    (S : List Station) (T : List Trip) :
    (updateScatterPlot st f).scale.domainMax = st.scale.domainMax ∧
    (updateScatterPlot st f).scale.rangeLo = (if f = -1 then 0 else 3) ∧
    (updateScatterPlot st f).scale.rangeHi = (if f = -1 then 25 else 50) ∧
    (fs.foldl updateScatterPlot (initialLoad S T)).scale.domainMax =
      maxTraffic (computeStationTraffic S T) := by
  refine ⟨?_, ?_, ?_, ?_⟩
  · unfold updateScatterPlot; split <;> rfl
  · unfold updateScatterPlot; split <;> simp_all
  · unfold updateScatterPlot; split <;> simp_all
  · rw [foldl_updateScatterPlot_domainMax]
    rfl

theorem aggregateOne_fields (T : List Trip) (idx : Nat) (s : Station) :
    (aggregateOne T idx s).arrivals =
      some (rollupCount Trip.end_station_id T (effectiveId s idx)) ∧
    (aggregateOne T idx s).departures =
      some (rollupCount Trip.start_station_id T (effectiveId s idx)) ∧
    (aggregateOne T idx s).totalTraffic =
      some (rollupCount Trip.end_station_id T (effectiveId s idx) +
            rollupCount Trip.start_station_id T (effectiveId s idx)) :=
  ⟨rfl, rfl, rfl⟩

/-- C1: after an aggregation pass every station carries defined counters with
`totalTraffic = arrivals + departures`, and a station whose effective
identity matches no trip's start or end station has all three counters equal
to the defined numeric 0. -/
theorem computeStationTraffic_total_and_zero (S : List Station) (T : List Trip) :
    (∀ s ∈ computeStationTraffic S T,
      ∃ a d : Nat, s.arrivals = some a ∧ s.departures = some d ∧
        s.totalTraffic = some (a + d)) ∧
    (∀ i : Nat, ∀ h : i < S.length, ∀ h' : i < (computeStationTraffic S T).length,
      (∀ t ∈ T, t.start_station_id ≠ effectiveId (S.get ⟨i, h⟩) i ∧
                t.end_station_id ≠ effectiveId (S.get ⟨i, h⟩) i) →
      ((computeStationTraffic S T).get ⟨i, h'⟩).arrivals = some 0 ∧
      ((computeStationTraffic S T).get ⟨i, h'⟩).departures = some 0 ∧
      ((computeStationTraffic S T).get ⟨i, h'⟩).totalTraffic = some 0) := by
  constructor
  · intro s hs
    rcases List.mem_iff_get.mp hs with ⟨⟨i, hi⟩, rfl⟩
    have hiS : i < S.length := by
      simpa [length_computeStationTraffic] using hi
    rw [get_computeStationTraffic S T i hiS hi]
    exact ⟨_, _, rfl, rfl, rfl⟩
  · intro i h h' hnone
    rw [get_computeStationTraffic S T i h h']
    have harr : rollupCount Trip.end_station_id T (effectiveId (S.get ⟨i, h⟩) i) = 0 :=
      rollupCount_eq_zero fun t ht => (hnone t ht).2
    have hdep : rollupCount Trip.start_station_id T (effectiveId (S.get ⟨i, h⟩) i) = 0 :=
      rollupCount_eq_zero fun t ht => (hnone t ht).1
    obtain ⟨e1, e2, e3⟩ := aggregateOne_fields T i (S.get ⟨i, h⟩)
    rw [e1, e2, e3, harr, hdep]
    exact ⟨rfl, rfl, rfl⟩

/-- Witness for C1: a station named "C" untouched by the single A-to-B trip
gets defined zero counters. -/
theorem computeStationTraffic_total_and_zero_witness :
    ((computeStationTraffic
        [⟨some "C", none, none, none, none, "n", none, none, none, ""⟩]
        [⟨"A", "B", ⟨8, 10⟩, ⟨8, 25⟩⟩]).get ⟨0, by decide⟩).arrivals = some 0 ∧
    ((computeStationTraffic
        [⟨some "C", none, none, none, none, "n", none, none, none, ""⟩]
        [⟨"A", "B", ⟨8, 10⟩, ⟨8, 25⟩⟩]).get ⟨0, by decide⟩).departures = some 0 ∧
    ((computeStationTraffic
        [⟨some "C", none, none, none, none, "n", none, none, none, ""⟩]
        [⟨"A", "B", ⟨8, 10⟩, ⟨8, 25⟩⟩]).get ⟨0, by decide⟩).totalTraffic = some 0 :=
  (computeStationTraffic_total_and_zero
      [⟨some "C", none, none, none, none, "n", none, none, none, ""⟩]
      [⟨"A", "B", ⟨8, 10⟩, ⟨8, 25⟩⟩]).2 0 (by decide) (by decide) (by decide)

/-- C7: aggregation preserves the length and element order of the station
list and, per station, every field other than `_id` and the three counters
(`short_name`, `station_id`, `lat`, `lon`, `name`, `extra`) is unchanged. -/
theorem computeStationTraffic_frame (S : List Station) (T : List Trip) :
    (computeStationTraffic S T).length = S.length ∧
    (∀ i : Nat, ∀ h : i < S.length, ∀ h' : i < (computeStationTraffic S T).length,
      ((computeStationTraffic S T).get ⟨i, h'⟩).short_name = (S.get ⟨i, h⟩).short_name ∧
      ((computeStationTraffic S T).get ⟨i, h'⟩).station_id = (S.get ⟨i, h⟩).station_id ∧
      ((computeStationTraffic S T).get ⟨i, h'⟩).lat = (S.get ⟨i, h⟩).lat ∧
      ((computeStationTraffic S T).get ⟨i, h'⟩).lon = (S.get ⟨i, h⟩).lon ∧
      ((computeStationTraffic S T).get ⟨i, h'⟩).name = (S.get ⟨i, h⟩).name ∧
      ((computeStationTraffic S T).get ⟨i, h'⟩).extra = (S.get ⟨i, h⟩).extra) := by
  refine ⟨length_computeStationTraffic S T, ?_⟩
  intro i h h'
  rw [get_computeStationTraffic S T i h h']
  exact ⟨rfl, rfl, rfl, rfl, rfl, rfl⟩

/-- Witness for C7: aggregating one concrete station with one trip keeps the
list length and the station's non-counter fields. -/
theorem computeStationTraffic_frame_witness :
    (computeStationTraffic
        [⟨some "A", some "sid", none, some 42, some (-71), "A st", none, none, none, "x"⟩]
        [⟨"A", "B", ⟨8, 10⟩, ⟨8, 25⟩⟩]).length = 1 ∧
    ((computeStationTraffic
        [⟨some "A", some "sid", none, some 42, some (-71), "A st", none, none, none, "x"⟩]
        [⟨"A", "B", ⟨8, 10⟩, ⟨8, 25⟩⟩]).get ⟨0, by decide⟩).name = "A st" := by
  have h := computeStationTraffic_frame
    [⟨some "A", some "sid", none, some 42, some (-71), "A st", none, none, none, "x"⟩]
    [⟨"A", "B", ⟨8, 10⟩, ⟨8, 25⟩⟩]
  exact ⟨h.1, (h.2 0 (by decide) (by decide)).2.2.2.2.1⟩

theorem aggregateOne_aggregateOne (T : List Trip) (idx : Nat) (s : Station) :
    aggregateOne T idx (aggregateOne T idx s) = aggregateOne T idx s := by
  simp [aggregateOne, getStationId]

/-- C8: the identity used in an aggregation pass is the cached `_id` whenever
one is present (regardless of the other record fields), and running
aggregation a second time on its own output with the same trips returns the
very same station list. -/
theorem computeStationTraffic_idempotent (S : List Station) (T : List Trip) :
    computeStationTraffic (computeStationTraffic S T) T = computeStationTraffic S T ∧
    (∀ s : Station, ∀ idx : Nat, ∀ v : String,
      s._id = some v → effectiveId s idx = v) := by
  constructor
  · apply List.ext_get
    · rw [length_computeStationTraffic, length_computeStationTraffic]
    · intro i h1 h2
      have hS : i < S.length := by
        simpa [length_computeStationTraffic] using h2
      have hCS : i < (computeStationTraffic S T).length := by
        simpa [length_computeStationTraffic] using hS
      rw [get_computeStationTraffic _ T i hCS h1,
        get_computeStationTraffic S T i hS h2]
      exact aggregateOne_aggregateOne T i _
  · intro s idx v hv
    simp [effectiveId, hv]

/-- Witness for C8: a station carrying a cached `_id` keeps that identity no
matter what `short_name` says, and a concrete double aggregation collapses. -/
theorem computeStationTraffic_idempotent_witness :
    computeStationTraffic
      (computeStationTraffic
        [⟨some "A", none, none, none, none, "n", none, none, none, ""⟩]
        [⟨"A", "B", ⟨8, 10⟩, ⟨8, 25⟩⟩]) [⟨"A", "B", ⟨8, 10⟩, ⟨8, 25⟩⟩] =
    computeStationTraffic
      [⟨some "A", none, none, none, none, "n", none, none, none, ""⟩]
      [⟨"A", "B", ⟨8, 10⟩, ⟨8, 25⟩⟩] ∧
    effectiveId
      ⟨some "changed", none, some "A", none, none, "n", none, none, none, ""⟩ 0 = "A" := by
  have h := computeStationTraffic_idempotent
    [⟨some "A", none, none, none, none, "n", none, none, none, ""⟩]
    [⟨"A", "B", ⟨8, 10⟩, ⟨8, 25⟩⟩]
  exact ⟨h.1, h.2 _ 0 "A" rfl⟩

theorem radiusScale_at_zero (domainMax rangeMin rangeMax : ℝ) :
    radiusScale domainMax rangeMin rangeMax 0 = rangeMin := by
  simp [radiusScale]

theorem radiusScale_at_domainMax (rangeMin rangeMax : ℝ) {domainMax : ℝ}
    (hd : 0 < domainMax) :
    radiusScale domainMax rangeMin rangeMax domainMax = rangeMax := by
  unfold radiusScale
  rw [div_self (ne_of_gt (Real.sqrt_pos.mpr hd))]
  ring

theorem radiusScale_mono {domainMax : ℝ} (rangeMin rangeMax : ℝ)
    (hd : 0 < domainMax) (hr : rangeMin ≤ rangeMax) {a b : ℝ} (hab : a ≤ b) :
    radiusScale domainMax rangeMin rangeMax a ≤
      radiusScale domainMax rangeMin rangeMax b := by
  unfold radiusScale
  have hpos : 0 < Real.sqrt domainMax := Real.sqrt_pos.mpr hd
  have h1 : Real.sqrt a / Real.sqrt domainMax ≤ Real.sqrt b / Real.sqrt domainMax :=
    (div_le_div_iff_of_pos_right hpos).mpr (Real.sqrt_le_sqrt hab)
  have h2 := mul_le_mul_of_nonneg_right h1 (sub_nonneg.mpr hr)
  exact add_le_add_left h2 rangeMin

/-- C3: the radius scale maps 0 to the current range minimum and the domain
maximum to the current range maximum, is monotone non-decreasing in between,
and the range is `[0, 25]` at the sentinel filter and `[3, 50]` under an
active filter, so a zero-traffic station under a filter is drawn at radius
3, not 0. -/
theorem radiusScale_endpoints_mono (f : Int) (dMax : ℝ) (hd : 0 < dMax) :
    radiusScale dMax (radiusRange f).1 (radiusRange f).2 0 = (radiusRange f).1 ∧
    radiusScale dMax (radiusRange f).1 (radiusRange f).2 dMax = (radiusRange f).2 ∧
    (∀ a b : ℝ, 0 ≤ a → a ≤ b →
      radiusScale dMax (radiusRange f).1 (radiusRange f).2 a ≤
        radiusScale dMax (radiusRange f).1 (radiusRange f).2 b) ∧
    (f = -1 → radiusRange f = (0, 25)) ∧
    (f ≠ -1 → radiusRange f = (3, 50) ∧
      radiusScale dMax (radiusRange f).1 (radiusRange f).2 0 = 3) := by
  have hr : (radiusRange f).1 ≤ (radiusRange f).2 := by
    unfold radiusRange
    split <;> norm_num
  refine ⟨radiusScale_at_zero _ _ _, radiusScale_at_domainMax _ _ hd,
    fun a b _ hab => radiusScale_mono _ _ hd hr hab,
    fun hf => by simp [radiusRange, hf],
    fun hf => ⟨by simp [radiusRange, hf], ?_⟩⟩
  rw [radiusScale_at_zero]
  simp [radiusRange, hf]

/-- Witness for C3: with domain maximum 4 and the active filter 600, radius 0
traffic is drawn at 3 and the domain maximum at 50. -/
theorem radiusScale_endpoints_mono_witness :
    radiusScale 4 (radiusRange 600).1 (radiusRange 600).2 0 = 3 ∧
    radiusScale 4 (radiusRange 600).1 (radiusRange 600).2 4 = 50 := by
  have h := radiusScale_endpoints_mono 600 4 (by norm_num)
  refine ⟨(h.2.2.2.2 (by decide)).2, ?_⟩
  rw [h.2.1]
  norm_num [radiusRange]
